import Mathlib

/-!
Shallow embedding of `pkg/build/build_implementation.go` from the apko
repository, covering `BuildTarball`, `GenerateImageSBOM`, `buildImage`,
`newSBOM` and `GenerateIndexSBOM`, together with proofs of the spec claims
about them.

Conventions of the embedding:
* Go errors are modelled as `Except String`; `fmt.Errorf("msg: %w", err)`
  wrapping becomes string concatenation `"msg: " ++ e`.
* External collaborators (the filesystem, the gzip library, the SBOM
  generator, the package manager, ...) are modelled as environment records
  of abstract fallible operations; the functions under study are translated
  line by line against those environments.
* Byte streams are `List Nat`; a SHA-256 accumulator is modelled by the
  exact list of bytes that was fed to it (the digest is a function of that
  list, so every claim about "which bytes were hashed" is stated on it).
* Observable side effects (binding a layer digest, generating SBOM files,
  logging the skip warning) are recorded in an event trace.
-/

namespace Apko

/-- Modelled from the spec: the `Architecture` type (`pkg/build/types`) is not
part of the source excerpt.  Per the spec an architecture is identified by its
canonical string representation (e.g. `"x86_64"`, `"aarch64"`, `"riscv64"`),
and both its `String()` form (used as the sort key) and its `ToAPK()` form
(used in SBOM file names) are that canonical name. -/
abbrev Architecture := String

/-- The subset of `options.Options` used by the functions under study.
`TempDirV` and `TarballFileNameV` are the (deterministic) results of the
accessors `o.TempDir()` and `o.TarballFileName()`; `wantSBOM` is the result
of `bc.WantSBOM()`. -/
structure Options where
  TarballPath : String
  TempDirV : String
  TarballFileNameV : String
  SBOMFormats : List String
  SBOMPath : String
  wantSBOM : Bool
  deriving Repr, DecidableEq

/-- The record `types.SBOM` returned to the caller for each produced SBOM
file (`Path`, `Format`, `Arch`, `Digest`). -/
structure SBOM where
  Path : String
  Format : String
  Arch : String
  Digest : String
  deriving Repr, DecidableEq

/-- The record `soptions.ArchImageInfo`: per-architecture record appended to
`s.Options.ImageInfo.Images` by `GenerateIndexSBOM`. -/
structure ArchImageInfo where
  Digest : String
  Arch : Architecture
  SBOMDigest : String
  deriving Repr, DecidableEq

/-- Model of `filepath.Join` for the clean path components appearing here. -/
def filepathJoin (a b : String) : String := a ++ "/" ++ b

deriving instance DecidableEq for Except

/-- An `oci.SignedImage`: its manifest (a list of layer digests, since only
`m.Layers[i].Digest` is consumed) and its digest, both fallible accessors. -/
structure ImageT where
  manifest : Except String (List String)
  digest : Except String String
  deriving Repr, DecidableEq

/-- Observable events of the SBOM-generation functions. -/
inductive Ev where
  /-- the "skipping SBOM generation" warning was logged -/
  | warnSkip
  /-- `s.SetLayerDigest` was called with this layer digest -/
  | boundLayer (d : String)
  /-- `s.ReadReleaseData` was called -/
  | readRelease
  /-- `s.ReadPackageIndex` was called -/
  | readPkgIndex
  /-- `s.Generate` / `s.GenerateIndex` produced these files -/
  | generated (files : List String)
  deriving Repr, DecidableEq

/-- Environment of external operations used by `GenerateImageSBOM`:
`bc.GetBuildDateEpoch`, the `sbom.SBOM` generator methods, and an oracle
`fileSHA256` giving the SHA-256 content digest of the file at a path
(what `khash.SHA256ForFile` would return; `GenerateImageSBOM` itself never
consults it). -/
structure SBOMEnv where
  buildDateEpoch : Except String Nat
  setLayerDigest : String → Except String Unit
  readReleaseData : Except String Unit
  readPackageIndex : Except String Unit
  generate : Except String (List String)
  fileSHA256 : String → Except String String

/-- Result of `GenerateImageSBOM`: the returned `([]types.SBOM, error)` pair
and the event trace. -/
structure ImageResult where
  res : Except String (List SBOM)
  trace : List Ev
  deriving Repr

/-- Translation of `Context.GenerateImageSBOM` (build_implementation.go:105-166), done
step by step: the `WantSBOM` short-circuit, `GetBuildDateEpoch`,
`img.Manifest()`, the `len(m.Layers) != 1` check, `SetLayerDigest` on
`m.Layers[0].Digest`, `ReadReleaseData`, `ReadPackageIndex`, `img.Digest()`,
`s.Generate()`, and the assembly of one `types.SBOM` record per produced file
with `Format = bc.o.SBOMFormats[0]`, `Arch = arch.String()` and
`Digest = h` (the image digest). -/
def GenerateImageSBOM (o : Options) (env : SBOMEnv) (arch : Architecture)
    (img : ImageT) : ImageResult :=
  if !o.wantSBOM then { res := .ok [], trace := [.warnSkip] }
  else
    match env.buildDateEpoch with
    | .error e => { res := .error ("computing build date epoch: " ++ e), trace := [] }
    | .ok _ =>
      match img.manifest with
      | .error e => { res := .error ("getting " ++ arch ++ " manifest: " ++ e), trace := [] }
      | .ok layers =>
        match layers with
        | [layerDigest] =>
          match env.setLayerDigest layerDigest with
          | .error e =>
            { res := .error ("reading layer tar: " ++ e), trace := [.boundLayer layerDigest] }
          | .ok _ =>
            match env.readReleaseData with
            | .error e =>
              { res := .error ("getting os-release: " ++ e),
                trace := [.boundLayer layerDigest, .readRelease] }
            | .ok _ =>
              match env.readPackageIndex with
              | .error e =>
                { res := .error ("getting installed packages from sbom: " ++ e),
                  trace := [.boundLayer layerDigest, .readRelease, .readPkgIndex] }
              | .ok _ =>
                match img.digest with
                | .error e =>
                  { res := .error ("getting " ++ arch ++ " image digest: " ++ e),
                    trace := [.boundLayer layerDigest, .readRelease, .readPkgIndex] }
                | .ok h =>
                  match env.generate with
                  | .error e =>
                    { res := .error ("generating sbom: " ++ e),
                      trace := [.boundLayer layerDigest, .readRelease, .readPkgIndex] }
                  | .ok files =>
                    { res := .ok (files.map fun f =>
                        { Path := f, Format := o.SBOMFormats.headD "", Arch := arch,
                          Digest := h }),
                      trace := [.boundLayer layerDigest, .readRelease, .readPkgIndex,
                                .generated files] }
        | ls =>
          { res := .error ("unexpected layers in " ++ arch ++ " manifest: "
              ++ toString ls.length),
            trace := [] }

/-- The SBOM output directory set by `newSBOM`
(build_implementation.go:290-293): `o.TempDir()`, overridden by `o.SBOMPath`
when that is non-empty. -/
def outputDir (o : Options) : String :=
  if o.SBOMPath ≠ "" then o.SBOMPath else o.TempDirV

/-- The `switch bc.o.SBOMFormats[0]` of build_implementation.go:321-329
choosing the SBOM file extension; a format outside the three cases leaves
`ext` at its zero value `""`. -/
def sbomExt (format : String) : String :=
  if format = "spdx" then "spdx.json"
  else if format = "cyclonedx" then "cdx"
  else if format = "idb" then "idb"
  else ""

/-- Go's `archs[i].String() < archs[j].String()` compares strings
byte-lexicographically; `archLe` is the reflexive closure of that order on
canonical architecture names, stated on the character list of the string
(identical to the string order, see `archLe_iff_le`, but kernel-computable). -/
def archLe (a b : Architecture) : Prop := a.data ≤ b.data

instance : DecidableRel archLe :=
  fun a b => inferInstanceAs (Decidable (a.data ≤ b.data))

instance : IsTotal Architecture archLe := ⟨fun a b => le_total a.data b.data⟩

instance : IsTrans Architecture archLe := ⟨fun _ _ _ h h2 => le_trans h h2⟩

instance : IsAntisymm Architecture archLe :=
  ⟨fun a b h h2 => by
    cases a; cases b; exact congrArg String.mk (le_antisymm h h2)⟩

/-- Relation `archLe` is the string order `≤` on canonical names. -/
theorem archLe_iff_le (a b : Architecture) : archLe a b ↔ a ≤ b := by
  rw [String.le_iff_toList_le]; exact Iff.rfl

/-- Environment of external operations used by `GenerateIndexSBOM`:
`v1.NewHash` (parsing the index digest string, `none` on parse failure),
`khash.SHA256ForFile` (hashing the current contents of the file at a path),
and `s.GenerateIndex()`. -/
structure IndexEnv where
  newHash : String → Option String
  fileSHA256 : String → Except String String
  generateIndex : Except String (List String)

/-- The per-architecture loop of `GenerateIndexSBOM`
(build_implementation.go:339-358): for each architecture in the given order,
recompute the SHA-256 of the on-disk file `sbom-<arch>.<ext>` in the output
directory, fetch the architecture's image digest from the map, and append an
`ArchImageInfo` record; the first failure aborts with the wrapped error. -/
def collectArchInfos (env : IndexEnv) (imgs : List (Architecture × ImageT))
    (dir ext : String) : List Architecture → Except String (List ArchImageInfo)
  | [] => .ok []
  | arch :: rest =>
    match env.fileSHA256 (filepathJoin dir ("sbom-" ++ arch ++ "." ++ ext)) with
    | .error e => .error ("checksumming " ++ arch ++ " SBOM: " ++ e)
    | .ok sbomHash =>
      match imgs.lookup arch with
      | none => .error ("getting arch image digest: no image for architecture")
      | some i =>
        match i.digest with
        | .error e => .error ("getting arch image digest: " ++ e)
        | .ok d =>
          match collectArchInfos env imgs dir ext rest with
          | .error e => .error e
          | .ok infos =>
            .ok ({ Digest := d, Arch := arch, SBOMDigest := sbomHash } :: infos)

/-- Result of `GenerateIndexSBOM`: the returned `([]types.SBOM, error)` pair,
the `ArchImageInfo` records loaded into `s.Options.ImageInfo.Images`, and the
event trace. -/
structure IndexResult where
  res : Except String (List SBOM)
  images : List ArchImageInfo
  trace : List Ev
  deriving Repr

/-- Translation of `Context.GenerateIndexSBOM` (build_implementation.go:298-372), done
step by step: the `WantSBOM` short-circuit, `v1.NewHash` on the index digest,
the extension switch, collecting the map's keys and sorting them with
`sort.Slice` by their canonical string form, the per-architecture loop
(`collectArchInfos`), `s.GenerateIndex()`, and the assembly of one
`types.SBOM` record per produced file with `Format = bc.o.SBOMFormats[0]`
and `Digest = h` (the index digest; `Arch` is left at its zero value).
The Go map `imgs` is an association list; sorting the key list with
`List.insertionSort archLe` agrees with `sort.Slice` under strict `<`
because map keys are distinct. -/
def GenerateIndexSBOM (o : Options) (env : IndexEnv) (indexDigestStr : String)
    (imgs : List (Architecture × ImageT)) : IndexResult :=
  if !o.wantSBOM then { res := .ok [], images := [], trace := [.warnSkip] }
  else
    match env.newHash indexDigestStr with
    | none => { res := .error "getting index hash", images := [], trace := [] }
    | some h =>
      let ext := sbomExt (o.SBOMFormats.headD "")
      let archs := imgs.map Prod.fst
      let sorted := List.insertionSort archLe archs
      match collectArchInfos env imgs (outputDir o) ext sorted with
      | .error e => { res := .error e, images := [], trace := [] }
      | .ok infos =>
        match env.generateIndex with
        | .error e =>
          { res := .error ("generating index SBOM: " ++ e), images := infos, trace := [] }
        | .ok files =>
          { res := .ok (files.map fun f =>
              { Path := f, Format := o.SBOMFormats.headD "", Arch := "", Digest := h }),
            images := infos,
            trace := [.generated files] }

/-! ### BuildTarball -/

/-- The output path chosen by `BuildTarball` (build_implementation.go:59-63):
`bc.o.TarballPath` when non-empty, else
`filepath.Join(bc.o.TempDir(), bc.o.TarballFileName())`. -/
def tarballOutPath (o : Options) : String :=
  if o.TarballPath ≠ "" then o.TarballPath
  else filepathJoin o.TempDirV o.TarballFileNameV

/-- Environment of external operations used by `BuildTarball`: `os.Create`
(success or failure per path), `tarball.NewContext`, `tw.WriteTar` (the
serialized uncompressed tar byte stream of `bc.fs`, or a traversal error),
the deterministic gzip compression function, `gzw.Close()`, `buf.Flush()`
and `outfile.Stat()`. -/
structure TarballEnv where
  create : String → Except String Unit
  newTarballContext : Except String Unit
  writeTar : Except String (List Nat)
  compress : List Nat → List Nat
  gzClose : Except String Unit
  flush : Except String Unit
  stat : Except String Unit

/-- The success value of `BuildTarball`: the output file name, the byte
streams fed to the `diffid` and `digest` SHA-256 accumulators, the bytes
persisted in the output file, and the size reported by `Stat`. -/
structure TarballOut where
  name : String
  diffid : List Nat
  digest : List Nat
  fileContent : List Nat
  size : Nat
  deriving Repr, DecidableEq

/-- Result of `BuildTarball`: the returned value or wrapped error, the build
options after the call (`bc.o`), and the list of files it created. -/
structure TarballResult where
  res : Except String TarballOut
  opts : Options
  created : List String
  deriving Repr

/-- Translation of `Context.BuildTarball` (build_implementation.go:52-103), step
by step.  The writer plumbing of the source is modelled exactly:
`tw.WriteTar(ctx, io.MultiWriter(diffid, gzw), bc.fs)` feeds the tar stream
both to the `diffid` accumulator and to the gzip writer;
`gzw = gzip.NewWriter(io.MultiWriter(digest, buf))` emits the compressed
stream both to the `digest` accumulator and to the 4 MiB `bufio` writer,
completing at `gzw.Close()`; `buf.Flush()` persists the buffered compressed
bytes to the output file; `outfile.Stat()` then reports the persisted size.
The output path is `bc.o.TarballPath` when non-empty, else
`filepath.Join(bc.o.TempDir(), bc.o.TarballFileName())`, and on a successful
open `bc.o.TarballPath` is overwritten with the opened file's name. -/
def BuildTarball (o : Options) (env : TarballEnv) : TarballResult :=
  let path := tarballOutPath o
  match env.create path with
  | .error e =>
    { res := .error ("opening the build context tarball path failed: " ++ e),
      opts := o, created := [] }
  | .ok _ =>
    let o := { o with TarballPath := path }
    match env.newTarballContext with
    | .error e =>
      { res := .error ("failed to construct tarball build context: " ++ e),
        opts := o, created := [path] }
    | .ok _ =>
      match env.writeTar with
      | .error e =>
        { res := .error ("failed to generate tarball for image: " ++ e),
          opts := o, created := [path] }
      | .ok tarBytes =>
        let diffidFed := tarBytes
        let gzPending := tarBytes
        match env.gzClose with
        | .error e =>
          { res := .error ("closing gzip writer: " ++ e), opts := o, created := [path] }
        | .ok _ =>
          let compressed := env.compress gzPending
          let digestFed := compressed
          let buffered := compressed
          match env.flush with
          | .error e =>
            { res := .error ("flushing " ++ path ++ ": " ++ e),
              opts := o, created := [path] }
          | .ok _ =>
            let persisted := buffered
            match env.stat with
            | .error e =>
              { res := .error ("stat(\"" ++ path ++ "\"): " ++ e),
                opts := o, created := [path] }
            | .ok _ =>
              { res := .ok { name := path, diffid := diffidFed, digest := digestFed,
                             fileContent := persisted, size := persisted.length },
                opts := o, created := [path] }

/-! ### buildImage -/

/-- Result of `GenerateOSRelease`: Go returns an `error` that callers test
with `errors.Is(err, ErrOSReleaseAlreadyPresent)`. -/
inductive OSErr where
  | alreadyPresent
  | other (msg : String)
  deriving Repr, DecidableEq

/-- Environment of external operations used by `buildImage`, one per call
the function makes. -/
structure BuildEnv where
  fixateWorld : Except String Unit
  additionalTags : Except String Unit
  mutateAccounts : Except String Unit
  mutatePaths : Except String Unit
  generateOSRelease : Except OSErr Unit
  writeSupervisionTree : Except String Unit
  getInstalled : Except String Unit
  installBusyboxLinks : Except String Unit
  installLdconfigLinks : Except String Unit
  installCharDevices : Except String Unit

/-- The mutation steps of `buildImage`, in source order.  `busybox` covers
the `GetInstalled` call and `installBusyboxLinks`, which together form the
"add busybox symlinks" step of the source. -/
inductive Step where
  | fixateWorld | addTags | accounts | paths | osRelease
  | supervision | busybox | ldconfig | chardev
  deriving Repr, DecidableEq

/-- The fixed order of the mutation steps. -/
def stepOrder : List Step :=
  [.fixateWorld, .addTags, .accounts, .paths, .osRelease,
   .supervision, .busybox, .ldconfig, .chardev]

/-- Result of `buildImage`: the returned error or success, the steps that
were attempted (in order), and whether the os-release warning was logged. -/
structure BuildImageResult where
  res : Except String Unit
  steps : List Step
  warned : Bool
  deriving Repr

/-- The tail of `buildImage` after the os-release step
(build_implementation.go:208-230): supervision tree, `GetInstalled` plus
busybox links, ldconfig links, character devices.  Returns the result and
the steps attempted from `supervision` on. -/
def buildImageRest (env : BuildEnv) : Except String Unit × List Step :=
  match env.writeSupervisionTree with
  | .error e => (.error ("failed to write supervision tree: " ++ e), [.supervision])
  | .ok _ =>
    match env.getInstalled with
    | .error e => (.error ("getting installed packages: " ++ e), [.supervision, .busybox])
    | .ok _ =>
      match env.installBusyboxLinks with
      | .error e => (.error e, [.supervision, .busybox])
      | .ok _ =>
        match env.installLdconfigLinks with
        | .error e => (.error e, [.supervision, .busybox, .ldconfig])
        | .ok _ =>
          match env.installCharDevices with
          | .error e => (.error e, [.supervision, .busybox, .ldconfig, .chardev])
          | .ok _ => (.ok (), [.supervision, .busybox, .ldconfig, .chardev])

/-- Translation of `Context.buildImage` (build_implementation.go:180-235), step
by step: `FixateWorld`, `additionalTags`, `mutateAccounts`, `mutatePaths`,
then `GenerateOSRelease` — whose `ErrOSReleaseAlreadyPresent` failure only
logs a warning and continues while any other failure aborts with a wrapped
error — then the remaining steps via `buildImageRest`.  Every fatal failure
returns immediately with its wrapped error. -/
def buildImage (env : BuildEnv) : BuildImageResult :=
  match env.fixateWorld with
  | .error e =>
    { res := .error ("installing apk packages: " ++ e),
      steps := [.fixateWorld], warned := false }
  | .ok _ =>
    match env.additionalTags with
    | .error e =>
      { res := .error ("adding additional tags: " ++ e),
        steps := [.fixateWorld, .addTags], warned := false }
    | .ok _ =>
      match env.mutateAccounts with
      | .error e =>
        { res := .error ("failed to mutate accounts: " ++ e),
          steps := [.fixateWorld, .addTags, .accounts], warned := false }
      | .ok _ =>
        match env.mutatePaths with
        | .error e =>
          { res := .error ("failed to mutate paths: " ++ e),
            steps := [.fixateWorld, .addTags, .accounts, .paths], warned := false }
        | .ok _ =>
          match env.generateOSRelease with
          | .error (.other e) =>
            { res := .error ("failed to generate /etc/os-release: " ++ e),
              steps := [.fixateWorld, .addTags, .accounts, .paths, .osRelease],
              warned := false }
          | .error .alreadyPresent =>
            { res := (buildImageRest env).1,
              steps := [.fixateWorld, .addTags, .accounts, .paths, .osRelease]
                        ++ (buildImageRest env).2,
              warned := true }
          | .ok _ =>
            { res := (buildImageRest env).1,
              steps := [.fixateWorld, .addTags, .accounts, .paths, .osRelease]
                        ++ (buildImageRest env).2,
              warned := false }

/-! ### Concrete fixtures used by the witness theorems -/

/-- A build configuration with SBOM generation enabled, no explicit tarball
path, and `spdx` as the primary SBOM format. -/
def fixOpts : Options :=
  { TarballPath := "", TempDirV := "/tmp/apko", TarballFileNameV := "image.tar.gz",
    SBOMFormats := ["spdx"], SBOMPath := "", wantSBOM := true }

/-- Configuration `fixOpts` with SBOM generation disabled. -/
def fixOptsNoSBOM : Options := { fixOpts with wantSBOM := false }

/-- An image whose manifest has exactly one layer. -/
def fixImg : ImageT :=
  { manifest := .ok ["sha256:layer1"], digest := .ok "sha256:img" }

/-- An image whose manifest has two layers. -/
def fixImgTwoLayers : ImageT :=
  { manifest := .ok ["sha256:l1", "sha256:l2"], digest := .ok "sha256:img" }

/-- An SBOM-generation environment in which every external step succeeds. -/
def fixEnv : SBOMEnv :=
  { buildDateEpoch := .ok 0, setLayerDigest := fun _ => .ok (),
    readReleaseData := .ok (), readPackageIndex := .ok (),
    generate := .ok ["/tmp/apko/sbom-x86_64.spdx.json"],
    fileSHA256 := fun _ => .ok "sha256:sbomfile" }

/-- An index-SBOM environment in which every external step succeeds and the
on-disk hash of a file is derived from its path. -/
def fixIEnv : IndexEnv :=
  { newHash := fun s => some s,
    fileSHA256 := fun p => .ok ("sha256-of:" ++ p),
    generateIndex := .ok ["/tmp/apko/sbom-index.spdx.json"] }

/-! ### C3: disabled SBOM generation short-circuits -/

/-- C3: for every build context in which SBOM generation is disabled by
configuration, both `GenerateImageSBOM` and `GenerateIndexSBOM` return an
empty result and no error after logging the skip warning, performing no
other work (the result is the same for every environment, image and input
map, and the trace holds only the warning). -/
theorem generateSBOM_disabled_skips (o : Options) (env : SBOMEnv)
    (ienv : IndexEnv) (arch : Architecture) (img : ImageT) (idx : String)
    (imgs : List (Architecture × ImageT)) (h : o.wantSBOM = false) :
    GenerateImageSBOM o env arch img = { res := .ok [], trace := [.warnSkip] } ∧
    GenerateIndexSBOM o ienv idx imgs =
      { res := .ok [], images := [], trace := [.warnSkip] } := by
  constructor <;> simp [GenerateImageSBOM, GenerateIndexSBOM, h]

/-- Witness for C3 at a concrete disabled configuration. -/
theorem generateSBOM_disabled_skips_witness :
    GenerateImageSBOM fixOptsNoSBOM fixEnv "x86_64" fixImg =
      { res := .ok [], trace := [.warnSkip] } ∧
    GenerateIndexSBOM fixOptsNoSBOM fixIEnv "sha256:idx" [("x86_64", fixImg)] =
      { res := .ok [], images := [], trace := [.warnSkip] } :=
  generateSBOM_disabled_skips fixOptsNoSBOM fixEnv fixIEnv "x86_64" fixImg
    "sha256:idx" [("x86_64", fixImg)] rfl

/-! ### C1: the exactly-one-layer check -/

/-- C1: when SBOM generation is enabled and the build date epoch is
available, an image whose manifest reports a layer count other than one
makes `GenerateImageSBOM` fail with an error naming the architecture and
the layer count, before any layer digest is bound and before any SBOM file
is generated (the trace is empty); when the manifest reports exactly one
layer, the check passes and that layer's digest is the one bound to the
SBOM generator (the first event is `boundLayer` of that digest). -/
theorem generateImageSBOM_layer_count (o : Options) (env : SBOMEnv)
    (arch : Architecture) (img : ImageT) (n : Nat)
    (hw : o.wantSBOM = true) (hbde : env.buildDateEpoch = .ok n) :
    (∀ layers, img.manifest = .ok layers → layers.length ≠ 1 →
      GenerateImageSBOM o env arch img =
        { res := .error ("unexpected layers in " ++ arch ++ " manifest: "
            ++ toString layers.length),
          trace := [] }) ∧
    (∀ d, img.manifest = .ok [d] →
      (GenerateImageSBOM o env arch img).trace.head? = some (.boundLayer d)) := by
  constructor
  · intro layers hm hne
    rcases layers with _ | ⟨a, _ | ⟨b, t⟩⟩
    · simp [GenerateImageSBOM, hw, hbde, hm]
    · exact absurd rfl hne
    · simp [GenerateImageSBOM, hw, hbde, hm]
  · intro d hm
    cases h1 : env.setLayerDigest d <;>
    cases h2 : env.readReleaseData <;>
    cases h3 : env.readPackageIndex <;>
    cases h4 : img.digest <;>
    cases h5 : env.generate <;>
    simp [GenerateImageSBOM, hw, hbde, hm, h1, h2, h3, h4, h5]

/-- Witness for C1: a two-layer image fails with the wrapped count, and a
one-layer image binds that layer's digest. -/
theorem generateImageSBOM_layer_count_witness :
    GenerateImageSBOM fixOpts fixEnv "x86_64" fixImgTwoLayers =
      { res := .error "unexpected layers in x86_64 manifest: 2", trace := [] } ∧
    (GenerateImageSBOM fixOpts fixEnv "x86_64" fixImg).trace.head? =
      some (.boundLayer "sha256:layer1") := by
  constructor
  · have h := (generateImageSBOM_layer_count fixOpts fixEnv "x86_64"
      fixImgTwoLayers 0 rfl rfl).1 ["sha256:l1", "sha256:l2"] rfl (by decide)
    simpa using h
  · exact (generateImageSBOM_layer_count fixOpts fixEnv "x86_64" fixImg 0 rfl
      rfl).2 "sha256:layer1" rfl

/-! ### buildImage: step order and error taxonomy -/

/-- The tail of the pipeline succeeds exactly when its five external
operations succeed. -/
theorem buildImageRest_ok_iff (env : BuildEnv) :
    (buildImageRest env).1 = .ok () ↔
      env.writeSupervisionTree = .ok () ∧ env.getInstalled = .ok () ∧
      env.installBusyboxLinks = .ok () ∧ env.installLdconfigLinks = .ok () ∧
      env.installCharDevices = .ok () := by
  cases h1 : env.writeSupervisionTree <;> cases h2 : env.getInstalled <;>
  cases h3 : env.installBusyboxLinks <;> cases h4 : env.installLdconfigLinks <;>
  cases h5 : env.installCharDevices <;> simp_all [buildImageRest]

/-- Function `buildImage` succeeds exactly when every fatal step succeeds and the
os-release step either succeeds or reports "already present". -/
theorem buildImage_res_ok_iff (env : BuildEnv) :
    (buildImage env).res = .ok () ↔
      env.fixateWorld = .ok () ∧ env.additionalTags = .ok () ∧
      env.mutateAccounts = .ok () ∧ env.mutatePaths = .ok () ∧
      (env.generateOSRelease = .ok () ∨
        env.generateOSRelease = .error .alreadyPresent) ∧
      env.writeSupervisionTree = .ok () ∧ env.getInstalled = .ok () ∧
      env.installBusyboxLinks = .ok () ∧ env.installLdconfigLinks = .ok () ∧
      env.installCharDevices = .ok () := by
  cases h1 : env.fixateWorld <;> cases h2 : env.additionalTags <;>
  cases h3 : env.mutateAccounts <;> cases h4 : env.mutatePaths <;>
  cases h5 : env.generateOSRelease <;> rename_i v <;> cases v <;>
  simp_all [buildImage, buildImageRest_ok_iff]

/-- C4: the os-release step is the unique non-fatal step of the mutation
pipeline.  (1) When `GenerateOSRelease` reports the distinguished
"already present" condition, `buildImage` behaves exactly as if the step
had succeeded (same result, same steps), and — when the step is reached —
the warning is logged; (2) when it fails with any other error and the step
is reached, `buildImage` aborts there with the wrapped error; (3) a
successful `buildImage` requires every other step to have succeeded, while
the os-release step may have succeeded or reported "already present". -/
theorem buildImage_osRelease_recoverable (env : BuildEnv) :
    (env.generateOSRelease = .error .alreadyPresent →
      (buildImage env).res =
        (buildImage { env with generateOSRelease := .ok () }).res ∧
      (buildImage env).steps =
        (buildImage { env with generateOSRelease := .ok () }).steps) ∧
    (env.fixateWorld = .ok () → env.additionalTags = .ok () →
      env.mutateAccounts = .ok () → env.mutatePaths = .ok () →
      env.generateOSRelease = .error .alreadyPresent →
      (buildImage env).warned = true) ∧
    (∀ e, env.fixateWorld = .ok () → env.additionalTags = .ok () →
      env.mutateAccounts = .ok () → env.mutatePaths = .ok () →
      env.generateOSRelease = .error (.other e) →
      buildImage env =
        { res := .error ("failed to generate /etc/os-release: " ++ e),
          steps := [.fixateWorld, .addTags, .accounts, .paths, .osRelease],
          warned := false }) ∧
    ((buildImage env).res = .ok () →
      env.fixateWorld = .ok () ∧ env.additionalTags = .ok () ∧
      env.mutateAccounts = .ok () ∧ env.mutatePaths = .ok () ∧
      (env.generateOSRelease = .ok () ∨
        env.generateOSRelease = .error .alreadyPresent) ∧
      env.writeSupervisionTree = .ok () ∧ env.getInstalled = .ok () ∧
      env.installBusyboxLinks = .ok () ∧ env.installLdconfigLinks = .ok () ∧
      env.installCharDevices = .ok ()) := by
  refine ⟨?_, ?_, ?_, (buildImage_res_ok_iff env).mp⟩
  · intro h
    cases h1 : env.fixateWorld <;> cases h2 : env.additionalTags <;>
    cases h3 : env.mutateAccounts <;> cases h4 : env.mutatePaths <;>
    simp_all [buildImage, buildImageRest]
  · intro h1 h2 h3 h4 h
    simp [buildImage, h1, h2, h3, h4, h]
  · intro e h1 h2 h3 h4 h
    simp [buildImage, h1, h2, h3, h4, h]

/-- A pipeline environment in which every external operation succeeds. -/
def fixBuildEnv : BuildEnv :=
  { fixateWorld := .ok (), additionalTags := .ok (), mutateAccounts := .ok (),
    mutatePaths := .ok (), generateOSRelease := .ok (),
    writeSupervisionTree := .ok (), getInstalled := .ok (),
    installBusyboxLinks := .ok (), installLdconfigLinks := .ok (),
    installCharDevices := .ok () }

/-- Environment `fixBuildEnv` with the os-release step reporting "already present". -/
def fixBuildEnvOSPresent : BuildEnv :=
  { fixBuildEnv with generateOSRelease := .error .alreadyPresent }

/-- Witness for C4: with release metadata already present and every other
step succeeding, the pipeline warns and completes successfully. -/
theorem buildImage_osRelease_recoverable_witness :
    (buildImage fixBuildEnvOSPresent).res = .ok () ∧
    (buildImage fixBuildEnvOSPresent).warned = true := by
  have h := buildImage_osRelease_recoverable fixBuildEnvOSPresent
  refine ⟨(h.1 rfl).1.trans ?_, h.2.1 rfl rfl rfl rfl rfl⟩
  rfl

/-- C5: `buildImage` executes the mutation steps in exactly the fixed order
`stepOrder` (world finalization, additional tags, account mutation, path
mutation, release metadata, supervision tree, busybox links, ldconfig
links, character devices); whenever a fatal step fails — all earlier steps
having passed — it returns that step's wrapped error immediately and the
attempted steps are exactly the first `k` of `stepOrder`, so no later step
runs; when every step passes it succeeds having attempted all of them in
order. -/
theorem buildImage_fixed_order (env : BuildEnv) :
    (∀ e, env.fixateWorld = .error e →
      buildImage env = { res := .error ("installing apk packages: " ++ e),
                         steps := stepOrder.take 1, warned := false }) ∧
    (∀ e, env.fixateWorld = .ok () → env.additionalTags = .error e →
      buildImage env = { res := .error ("adding additional tags: " ++ e),
                         steps := stepOrder.take 2, warned := false }) ∧
    (∀ e, env.fixateWorld = .ok () → env.additionalTags = .ok () →
      env.mutateAccounts = .error e →
      buildImage env = { res := .error ("failed to mutate accounts: " ++ e),
                         steps := stepOrder.take 3, warned := false }) ∧
    (∀ e, env.fixateWorld = .ok () → env.additionalTags = .ok () →
      env.mutateAccounts = .ok () → env.mutatePaths = .error e →
      buildImage env = { res := .error ("failed to mutate paths: " ++ e),
                         steps := stepOrder.take 4, warned := false }) ∧
    (∀ e, env.fixateWorld = .ok () → env.additionalTags = .ok () →
      env.mutateAccounts = .ok () → env.mutatePaths = .ok () →
      env.generateOSRelease = .error (.other e) →
      buildImage env =
        { res := .error ("failed to generate /etc/os-release: " ++ e),
          steps := stepOrder.take 5, warned := false }) ∧
    (∀ e, env.fixateWorld = .ok () → env.additionalTags = .ok () →
      env.mutateAccounts = .ok () → env.mutatePaths = .ok () →
      (env.generateOSRelease = .ok () ∨
        env.generateOSRelease = .error .alreadyPresent) →
      env.writeSupervisionTree = .error e →
      (buildImage env).res = .error ("failed to write supervision tree: " ++ e) ∧
      (buildImage env).steps = stepOrder.take 6) ∧
    (∀ e, env.fixateWorld = .ok () → env.additionalTags = .ok () →
      env.mutateAccounts = .ok () → env.mutatePaths = .ok () →
      (env.generateOSRelease = .ok () ∨
        env.generateOSRelease = .error .alreadyPresent) →
      env.writeSupervisionTree = .ok () → env.getInstalled = .error e →
      (buildImage env).res = .error ("getting installed packages: " ++ e) ∧
      (buildImage env).steps = stepOrder.take 7) ∧
    (∀ e, env.fixateWorld = .ok () → env.additionalTags = .ok () →
      env.mutateAccounts = .ok () → env.mutatePaths = .ok () →
      (env.generateOSRelease = .ok () ∨
        env.generateOSRelease = .error .alreadyPresent) →
      env.writeSupervisionTree = .ok () → env.getInstalled = .ok () →
      env.installBusyboxLinks = .error e →
      (buildImage env).res = .error e ∧
      (buildImage env).steps = stepOrder.take 7) ∧
    (∀ e, env.fixateWorld = .ok () → env.additionalTags = .ok () →
      env.mutateAccounts = .ok () → env.mutatePaths = .ok () →
      (env.generateOSRelease = .ok () ∨
        env.generateOSRelease = .error .alreadyPresent) →
      env.writeSupervisionTree = .ok () → env.getInstalled = .ok () →
      env.installBusyboxLinks = .ok () → env.installLdconfigLinks = .error e →
      (buildImage env).res = .error e ∧
      (buildImage env).steps = stepOrder.take 8) ∧
    (∀ e, env.fixateWorld = .ok () → env.additionalTags = .ok () →
      env.mutateAccounts = .ok () → env.mutatePaths = .ok () →
      (env.generateOSRelease = .ok () ∨
        env.generateOSRelease = .error .alreadyPresent) →
      env.writeSupervisionTree = .ok () → env.getInstalled = .ok () →
      env.installBusyboxLinks = .ok () → env.installLdconfigLinks = .ok () →
      env.installCharDevices = .error e →
      (buildImage env).res = .error e ∧
      (buildImage env).steps = stepOrder) ∧
    (env.fixateWorld = .ok () → env.additionalTags = .ok () →
      env.mutateAccounts = .ok () → env.mutatePaths = .ok () →
      (env.generateOSRelease = .ok () ∨
        env.generateOSRelease = .error .alreadyPresent) →
      env.writeSupervisionTree = .ok () → env.getInstalled = .ok () →
      env.installBusyboxLinks = .ok () → env.installLdconfigLinks = .ok () →
      env.installCharDevices = .ok () →
      (buildImage env).res = .ok () ∧ (buildImage env).steps = stepOrder) := by
  refine ⟨?_, ?_, ?_, ?_, ?_, ?_, ?_, ?_, ?_, ?_, ?_⟩ <;>
    (try intro e) <;> intro h1 <;> (try intro h2) <;> (try intro h3) <;>
    (try intro h4) <;> (try intro h5) <;> (try intro h6) <;> (try intro h7) <;>
    (try intro h8) <;> (try intro h9) <;> (try intro h10) <;>
    (try rcases h5 with h5 | h5) <;> (try rcases h4 with h4 | h4) <;>
    simp_all [buildImage, buildImageRest, stepOrder]

/-- Witness for C5: with every step succeeding, all nine steps run in
order; with path mutation failing, the pipeline aborts after the fourth
step with the wrapped error. -/
theorem buildImage_fixed_order_witness :
    ((buildImage fixBuildEnv).res = .ok () ∧
      (buildImage fixBuildEnv).steps = stepOrder) ∧
    buildImage { fixBuildEnv with mutatePaths := .error "disk full" } =
      { res := .error ("failed to mutate paths: " ++ "disk full"),
        steps := stepOrder.take 4, warned := false } := by
  constructor
  · exact (buildImage_fixed_order fixBuildEnv).2.2.2.2.2.2.2.2.2.2 rfl rfl rfl
      rfl (Or.inl rfl) rfl rfl rfl rfl rfl
  · exact (buildImage_fixed_order
      { fixBuildEnv with mutatePaths := .error "disk full" }).2.2.2.1
      "disk full" rfl rfl rfl rfl

/-! ### BuildTarball: digests, output file, configuration update -/

/-- C7: on every successful `BuildTarball` run, the `diffid` accumulator was
fed exactly the uncompressed serialized tar stream (which is also exactly
what entered the compressor, whose output determines the rest), the `digest`
accumulator was fed exactly the compressed bytes written toward the output
file (the persisted file content), and the returned size is the byte size
of the persisted output file after the final flush. -/
theorem buildTarball_digest_streams (o : Options) (env : TarballEnv)
    (out : TarballOut) (h : (BuildTarball o env).res = .ok out) :
    env.writeTar = .ok out.diffid ∧
    out.digest = env.compress out.diffid ∧
    out.fileContent = out.digest ∧
    out.size = out.fileContent.length := by
  cases h1 : env.create (tarballOutPath o) <;>
  cases h2 : env.newTarballContext <;>
  cases h3 : env.writeTar <;>
  cases h4 : env.gzClose <;>
  cases h5 : env.flush <;>
  cases h6 : env.stat <;>
  simp_all [BuildTarball]
  subst h
  simp

/-- A tarball environment in which every external step succeeds, the tar
stream is `[1, 2, 3]` and compression prepends a header byte `9`. -/
def fixTEnv : TarballEnv :=
  { create := fun _ => .ok (), newTarballContext := .ok (),
    writeTar := .ok [1, 2, 3], compress := fun bs => 9 :: bs,
    gzClose := .ok (), flush := .ok (), stat := .ok () }

/-- Witness for C7 at a concrete run: the diffid stream is the tar bytes,
the digest stream is the compressed persisted bytes, and the size is the
persisted byte count. -/
theorem buildTarball_digest_streams_witness :
    fixTEnv.writeTar = .ok [1, 2, 3] ∧
    ([9, 1, 2, 3] : List Nat) = fixTEnv.compress [1, 2, 3] ∧
    ([9, 1, 2, 3] : List Nat) = [9, 1, 2, 3] ∧
    (4 : Nat) = ([9, 1, 2, 3] : List Nat).length :=
  buildTarball_digest_streams fixOpts fixTEnv
    { name := "/tmp/apko/image.tar.gz", diffid := [1, 2, 3],
      digest := [9, 1, 2, 3], fileContent := [9, 1, 2, 3], size := 4 } rfl

/-- C8: `BuildTarball` creates exactly one output file, at the configured
tarball path when set and otherwise at the default path joined from the
configured temporary directory and the configuration-derived file name; if
opening that file fails it returns the wrapped open error and creates
nothing. -/
theorem buildTarball_single_output (o : Options) (env : TarballEnv) :
    (o.TarballPath ≠ "" → tarballOutPath o = o.TarballPath) ∧
    (o.TarballPath = "" →
      tarballOutPath o = filepathJoin o.TempDirV o.TarballFileNameV) ∧
    (env.create (tarballOutPath o) = .ok () →
      (BuildTarball o env).created = [tarballOutPath o]) ∧
    (∀ e, env.create (tarballOutPath o) = .error e →
      (BuildTarball o env).res =
        .error ("opening the build context tarball path failed: " ++ e) ∧
      (BuildTarball o env).created = []) := by
  refine ⟨fun h => by simp [tarballOutPath, h], fun h => by simp [tarballOutPath, h],
    ?_, ?_⟩
  · intro h
    cases h2 : env.newTarballContext <;>
    cases h3 : env.writeTar <;>
    cases h4 : env.gzClose <;>
    cases h5 : env.flush <;>
    cases h6 : env.stat <;>
    simp_all [BuildTarball]
  · intro e h
    simp [BuildTarball, h]

/-- Witness for C8: with an empty configured path the single created file is
the default-joined path, and with a failing open nothing is created. -/
theorem buildTarball_single_output_witness :
    (BuildTarball fixOpts fixTEnv).created = ["/tmp/apko" ++ "/" ++ "image.tar.gz"] ∧
    (BuildTarball fixOpts
        { fixTEnv with create := fun _ => .error "permission denied" }).res =
      .error ("opening the build context tarball path failed: "
        ++ "permission denied") ∧
    (BuildTarball fixOpts
        { fixTEnv with create := fun _ => .error "permission denied" }).created = [] := by
  refine ⟨(buildTarball_single_output fixOpts fixTEnv).2.2.1 rfl, ?_, ?_⟩
  · exact ((buildTarball_single_output fixOpts
      { fixTEnv with create := fun _ => .error "permission denied" }).2.2.2
      "permission denied" rfl).1
  · exact ((buildTarball_single_output fixOpts
      { fixTEnv with create := fun _ => .error "permission denied" }).2.2.2
      "permission denied" rfl).2

/-- C10: after a successful open, `BuildTarball` overwrites the
configuration's `TarballPath` with the opened file's name — so after any
call that got past the open (successful or failing later) the configured
`TarballPath` names the actually created output file, including when it
was empty before — and no other configuration field changes; when the open
itself fails the configuration is returned unchanged. -/
theorem buildTarball_updates_tarballPath (o : Options) (env : TarballEnv) :
    (env.create (tarballOutPath o) = .ok () →
      (BuildTarball o env).opts = { o with TarballPath := tarballOutPath o } ∧
      (BuildTarball o env).opts.TarballPath = tarballOutPath o ∧
      (BuildTarball o env).created = [tarballOutPath o] ∧
      (BuildTarball o env).opts.TempDirV = o.TempDirV ∧
      (BuildTarball o env).opts.TarballFileNameV = o.TarballFileNameV ∧
      (BuildTarball o env).opts.SBOMFormats = o.SBOMFormats ∧
      (BuildTarball o env).opts.SBOMPath = o.SBOMPath ∧
      (BuildTarball o env).opts.wantSBOM = o.wantSBOM) ∧
    (∀ e, env.create (tarballOutPath o) = .error e →
      (BuildTarball o env).opts = o) := by
  constructor
  · intro h
    cases h2 : env.newTarballContext <;>
    cases h3 : env.writeTar <;>
    cases h4 : env.gzClose <;>
    cases h5 : env.flush <;>
    cases h6 : env.stat <;>
    simp_all [BuildTarball]
  · intro e h
    simp [BuildTarball, h]

/-- Witness for C10: starting from an empty configured `TarballPath`, the
returned configuration's `TarballPath` is the created default path and the
other fields are unchanged. -/
theorem buildTarball_updates_tarballPath_witness :
    (BuildTarball fixOpts fixTEnv).opts.TarballPath = tarballOutPath fixOpts ∧
    fixOpts.TarballPath = "" ∧
    (BuildTarball fixOpts fixTEnv).opts.SBOMFormats = fixOpts.SBOMFormats := by
  have h := (buildTarball_updates_tarballPath fixOpts fixTEnv).1 rfl
  exact ⟨h.2.1, rfl, h.2.2.2.2.2.1⟩

/-! ### The digest carried by returned SBOM records -/

/-- Every record of a successful `GenerateImageSBOM` result carries the
image digest as its `Digest`, the architecture, and the primary format. -/
theorem generateImageSBOM_ok_record (o : Options) (env : SBOMEnv)
    (arch : Architecture) (img : ImageT) (sb : List SBOM)
    (hres : (GenerateImageSBOM o env arch img).res = .ok sb)
    (r : SBOM) (hr : r ∈ sb) :
    ∃ hv, img.digest = .ok hv ∧ r.Digest = hv ∧ r.Arch = arch ∧
      r.Format = o.SBOMFormats.headD "" := by
  cases hw : o.wantSBOM
  · simp [GenerateImageSBOM, hw] at hres
    subst hres
    simp at hr
  · cases hb : env.buildDateEpoch with
    | error e => simp [GenerateImageSBOM, hw, hb] at hres
    | ok n =>
      cases hm : img.manifest with
      | error e => simp [GenerateImageSBOM, hw, hb, hm] at hres
      | ok layers =>
        rcases layers with _ | ⟨d, _ | ⟨d2, t⟩⟩
        · simp [GenerateImageSBOM, hw, hb, hm] at hres
        · cases h1 : env.setLayerDigest d with
          | error e => simp [GenerateImageSBOM, hw, hb, hm, h1] at hres
          | ok u =>
            cases h2 : env.readReleaseData with
            | error e => simp [GenerateImageSBOM, hw, hb, hm, h1, h2] at hres
            | ok u2 =>
              cases h3 : env.readPackageIndex with
              | error e => simp [GenerateImageSBOM, hw, hb, hm, h1, h2, h3] at hres
              | ok u3 =>
                cases h4 : img.digest with
                | error e =>
                  simp [GenerateImageSBOM, hw, hb, hm, h1, h2, h3, h4] at hres
                | ok hv =>
                  cases h5 : env.generate with
                  | error e =>
                    simp [GenerateImageSBOM, hw, hb, hm, h1, h2, h3, h4, h5] at hres
                  | ok files =>
                    refine ⟨hv, rfl, ?_⟩
                    simp [GenerateImageSBOM, hw, hb, hm, h1, h2, h3, h4, h5,
                      -List.headD_eq_head?_getD] at hres
                    subst hres
                    simp only [List.mem_map] at hr
                    obtain ⟨f, _, hf⟩ := hr
                    subst hf
                    exact ⟨rfl, rfl, rfl⟩
        · simp [GenerateImageSBOM, hw, hb, hm] at hres

/-- Every record of a successful `GenerateIndexSBOM` result carries the
index digest as its `Digest`, an empty architecture, and the primary
format. -/
theorem generateIndexSBOM_ok_record (o : Options) (ienv : IndexEnv)
    (idx : String) (imgs : List (Architecture × ImageT)) (sb : List SBOM)
    (hres : (GenerateIndexSBOM o ienv idx imgs).res = .ok sb)
    (r : SBOM) (hr : r ∈ sb) :
    ∃ hI, ienv.newHash idx = some hI ∧ r.Digest = hI ∧ r.Arch = "" ∧
      r.Format = o.SBOMFormats.headD "" := by
  cases hw : o.wantSBOM
  · simp [GenerateIndexSBOM, hw] at hres
    subst hres
    simp at hr
  · cases hnh : ienv.newHash idx with
    | none => simp [GenerateIndexSBOM, hw, hnh] at hres
    | some h =>
      cases hcol : collectArchInfos ienv imgs (outputDir o)
          (sbomExt (o.SBOMFormats.headD ""))
          (List.insertionSort archLe (imgs.map Prod.fst)) with
      | error e =>
        simp [GenerateIndexSBOM, hw, hnh, hcol,
          -List.headD_eq_head?_getD] at hres
      | ok infos =>
        cases hgi : ienv.generateIndex with
        | error e =>
          simp [GenerateIndexSBOM, hw, hnh, hcol, hgi,
            -List.headD_eq_head?_getD] at hres
        | ok files =>
          simp [GenerateIndexSBOM, hw, hnh, hcol, hgi,
            -List.headD_eq_head?_getD] at hres
          refine ⟨h, rfl, ?_⟩
          subst hres
          simp only [List.mem_map] at hr
          obtain ⟨f, _, hf⟩ := hr
          subst hf
          exact ⟨rfl, rfl, rfl⟩

/-- C9 counterexample: a concrete run of `GenerateImageSBOM` in which the
produced SBOM file's on-disk content digest is `"sha256:sbomfile"` but the
returned record carries the image digest `"sha256:img"` — not the content
digest of the file at the record's path. -/
theorem sbomRecord_digest_counterexample :
    (GenerateImageSBOM fixOpts fixEnv "x86_64" fixImg).res =
      .ok [{ Path := "/tmp/apko/sbom-x86_64.spdx.json", Format := "spdx",
             Arch := "x86_64", Digest := "sha256:img" }] ∧
    fixEnv.fileSHA256 "/tmp/apko/sbom-x86_64.spdx.json" = .ok "sha256:sbomfile" ∧
    ("sha256:img" : String) ≠ "sha256:sbomfile" :=
  ⟨rfl, rfl, by decide⟩

/-- C9 amended: every SBOM record returned by `GenerateImageSBOM` carries
as its digest the image's digest (the same for all records of the call),
and every record returned by `GenerateIndexSBOM` carries the index digest —
not the content digest of the SBOM file at the record's path. -/
theorem sbomRecord_digest_amended (o : Options) (env : SBOMEnv)
    (ienv : IndexEnv) (arch : Architecture) (img : ImageT) (idx : String)
    (imgs : List (Architecture × ImageT)) :
    (∀ sb hv, (GenerateImageSBOM o env arch img).res = .ok sb →
      img.digest = .ok hv → ∀ r ∈ sb, r.Digest = hv) ∧
    (∀ sb hI, ienv.newHash idx = some hI →
      (GenerateIndexSBOM o ienv idx imgs).res = .ok sb →
      ∀ r ∈ sb, r.Digest = hI) := by
  constructor
  · intro sb hv hres hdig r hr
    obtain ⟨hv2, hdig2, hD, _, _⟩ :=
      generateImageSBOM_ok_record o env arch img sb hres r hr
    rw [hdig] at hdig2
    cases hdig2
    exact hD
  · intro sb hI hnh hres r hr
    obtain ⟨hI2, hnh2, hD, _, _⟩ :=
      generateIndexSBOM_ok_record o ienv idx imgs sb hres r hr
    rw [hnh] at hnh2
    cases hnh2
    exact hD

/-- Witness for the amended C9 at a concrete image run: the single returned
record's digest is the image digest. -/
theorem sbomRecord_digest_amended_witness :
    ∀ r ∈ ([{ Path := "/tmp/apko/sbom-x86_64.spdx.json", Format := "spdx",
              Arch := "x86_64", Digest := "sha256:img" }] : List SBOM),
      r.Digest = "sha256:img" :=
  (sbomRecord_digest_amended fixOpts fixEnv fixIEnv "x86_64" fixImg
      "sha256:idx" []).1
    [{ Path := "/tmp/apko/sbom-x86_64.spdx.json", Format := "spdx",
       Arch := "x86_64", Digest := "sha256:img" }]
    "sha256:img" rfl rfl

/-! ### GenerateIndexSBOM: deterministic architecture order -/

/-- A successful per-architecture collection visits exactly the given
architectures, in the given order. -/
theorem collectArchInfos_ok_map_arch (env : IndexEnv)
    (imgs : List (Architecture × ImageT)) (dir ext : String) :
    ∀ archs infos, collectArchInfos env imgs dir ext archs = .ok infos →
      infos.map ArchImageInfo.Arch = archs := by
  intro archs
  induction archs with
  | nil =>
    intro infos h
    simp only [collectArchInfos] at h
    cases h
    rfl
  | cons a t ih =>
    intro infos h
    simp only [collectArchInfos] at h
    cases h1 : env.fileSHA256 (filepathJoin dir ("sbom-" ++ a ++ "." ++ ext)) with
    | error e => simp only [h1] at h; cases h
    | ok sh =>
      cases h2 : imgs.lookup a with
      | none => simp only [h1, h2] at h; cases h
      | some i =>
        cases h3 : i.digest with
        | error e => simp only [h1, h2, h3] at h; cases h
        | ok d =>
          cases h4 : collectArchInfos env imgs dir ext t with
          | error e => simp only [h1, h2, h3, h4] at h; cases h
          | ok infos2 =>
            simp only [h1, h2, h3, h4, Except.ok.injEq] at h
            subst h
            simp [ih infos2 h4]

/-- Every record of a successful per-architecture collection carries as its
`SBOMDigest` the on-disk hash of the file `sbom-<arch>.<ext>` in the output
directory. -/
theorem collectArchInfos_ok_sbomDigest (env : IndexEnv)
    (imgs : List (Architecture × ImageT)) (dir ext : String) :
    ∀ archs infos, collectArchInfos env imgs dir ext archs = .ok infos →
      ∀ r ∈ infos,
        env.fileSHA256 (filepathJoin dir ("sbom-" ++ r.Arch ++ "." ++ ext)) =
          .ok r.SBOMDigest := by
  intro archs
  induction archs with
  | nil =>
    intro infos h
    simp only [collectArchInfos] at h
    cases h
    intro r hr
    simp at hr
  | cons a t ih =>
    intro infos h
    simp only [collectArchInfos] at h
    cases h1 : env.fileSHA256 (filepathJoin dir ("sbom-" ++ a ++ "." ++ ext)) with
    | error e => simp only [h1] at h; cases h
    | ok sh =>
      cases h2 : imgs.lookup a with
      | none => simp only [h1, h2] at h; cases h
      | some i =>
        cases h3 : i.digest with
        | error e => simp only [h1, h2, h3] at h; cases h
        | ok d =>
          cases h4 : collectArchInfos env imgs dir ext t with
          | error e => simp only [h1, h2, h3, h4] at h; cases h
          | ok infos2 =>
            simp only [h1, h2, h3, h4, Except.ok.injEq] at h
            subst h
            intro r hr
            rcases List.mem_cons.mp hr with hr | hr
            · subst hr
              exact h1
            · exact ih infos2 h4 r hr

/-- Looking a key up in an association list with distinct keys is invariant
under permutation of the list (the map-faithfulness fact behind modelling
the Go map as an association list). -/
theorem lookup_perm : ∀ {l₁ l₂ : List (Architecture × ImageT)}, l₁.Perm l₂ →
    (l₁.map Prod.fst).Nodup → ∀ a, l₁.lookup a = l₂.lookup a := by
  intro l₁ l₂ p
  induction p with
  | nil => intro _ a; rfl
  | cons x p ih =>
    intro nd a
    obtain ⟨k, v⟩ := x
    simp only [List.map_cons, List.nodup_cons] at nd
    simp only [List.lookup]
    cases hak : a == k
    · simpa using ih nd.2 a
    · rfl
  | swap x y l =>
    intro nd a
    obtain ⟨k1, v1⟩ := x
    obtain ⟨k2, v2⟩ := y
    simp only [List.map_cons, List.nodup_cons, List.mem_cons] at nd
    simp only [List.lookup]
    cases hak2 : a == k2 <;> cases hak1 : a == k1 <;> simp_all
  | trans p₁ p₂ ih₁ ih₂ =>
    intro nd a
    rw [ih₁ nd a, ih₂ ((p₁.map Prod.fst).nodup nd) a]

/-- The per-architecture collection only consults the map through `lookup`,
so association lists with the same lookup function collect identically. -/
theorem collectArchInfos_congr (env : IndexEnv)
    {imgs imgs' : List (Architecture × ImageT)}
    (hl : ∀ a, imgs.lookup a = imgs'.lookup a) (dir ext : String) :
    ∀ archs, collectArchInfos env imgs dir ext archs =
      collectArchInfos env imgs' dir ext archs := by
  intro archs
  induction archs with
  | nil => rfl
  | cons a t ih => simp only [collectArchInfos, hl a, ih]

/-- Sorting with `archLe` is invariant under permutation of the input. -/
theorem insertionSort_perm_eq {l₁ l₂ : List Architecture} (p : l₁.Perm l₂) :
    List.insertionSort archLe l₁ = List.insertionSort archLe l₂ :=
  List.eq_of_perm_of_sorted
    ((List.perm_insertionSort archLe l₁).trans
      (p.trans (List.perm_insertionSort archLe l₂).symm))
    (List.sorted_insertionSort archLe l₁)
    (List.sorted_insertionSort archLe l₂)

/-- Sorting a duplicate-free list of canonical names with `archLe` yields a
strictly increasing list in the string order. -/
theorem pairwise_lt_insertionSort {l : List Architecture} (hnd : l.Nodup) :
    List.Pairwise (· < ·) (List.insertionSort archLe l) := by
  have hs : List.Sorted archLe (List.insertionSort archLe l) :=
    List.sorted_insertionSort archLe l
  have hnd2 : (List.insertionSort archLe l).Nodup :=
    (List.perm_insertionSort archLe l).symm.nodup hnd
  exact (hs.and hnd2).imp
    (fun h => lt_of_le_of_ne ((archLe_iff_le _ _).mp h.1) h.2)

/-- The records loaded by `GenerateIndexSBOM` are either empty (skip or
failure before the loop) or exactly a successful collection over the sorted
architecture list. -/
theorem generateIndexSBOM_images_shape (o : Options) (ienv : IndexEnv)
    (idx : String) (imgs : List (Architecture × ImageT)) :
    (GenerateIndexSBOM o ienv idx imgs).images = [] ∨
    ∃ infos,
      collectArchInfos ienv imgs (outputDir o) (sbomExt (o.SBOMFormats.headD ""))
        (List.insertionSort archLe (imgs.map Prod.fst)) = .ok infos ∧
      (GenerateIndexSBOM o ienv idx imgs).images = infos := by
  cases hw : o.wantSBOM
  · left
    simp [GenerateIndexSBOM, hw]
  · cases hnh : ienv.newHash idx with
    | none =>
      left
      simp [GenerateIndexSBOM, hw, hnh]
    | some h =>
      cases hcol : collectArchInfos ienv imgs (outputDir o)
          (sbomExt (o.SBOMFormats.headD ""))
          (List.insertionSort archLe (imgs.map Prod.fst)) with
      | error e =>
        left
        simp [GenerateIndexSBOM, hw, hnh, hcol, -List.headD_eq_head?_getD]
      | ok infos =>
        right
        refine ⟨infos, rfl, ?_⟩
        cases hgi : ienv.generateIndex <;>
          simp [GenerateIndexSBOM, hw, hnh, hcol, hgi, -List.headD_eq_head?_getD]

/-- When index SBOM generation is enabled and succeeds, the loaded records
are exactly a successful collection over the sorted architecture list. -/
theorem generateIndexSBOM_ok_images (o : Options) (ienv : IndexEnv)
    (idx : String) (imgs : List (Architecture × ImageT)) (sb : List SBOM)
    (hw : o.wantSBOM = true)
    (hres : (GenerateIndexSBOM o ienv idx imgs).res = .ok sb) :
    ∃ infos,
      collectArchInfos ienv imgs (outputDir o) (sbomExt (o.SBOMFormats.headD ""))
        (List.insertionSort archLe (imgs.map Prod.fst)) = .ok infos ∧
      (GenerateIndexSBOM o ienv idx imgs).images = infos := by
  cases hnh : ienv.newHash idx with
  | none => simp [GenerateIndexSBOM, hw, hnh] at hres
  | some h =>
    cases hcol : collectArchInfos ienv imgs (outputDir o)
        (sbomExt (o.SBOMFormats.headD ""))
        (List.insertionSort archLe (imgs.map Prod.fst)) with
    | error e =>
      simp [GenerateIndexSBOM, hw, hnh, hcol, -List.headD_eq_head?_getD] at hres
    | ok infos =>
      refine ⟨infos, rfl, ?_⟩
      cases hgi : ienv.generateIndex <;>
        simp [GenerateIndexSBOM, hw, hnh, hcol, hgi, -List.headD_eq_head?_getD]

/-- C2: `GenerateIndexSBOM` appends its per-architecture
{digest, architecture, SBOM digest} records in strictly ascending order of
the architectures' canonical string representation, independently of the
input map's iteration order: permuting the association list leaves the
whole result unchanged, the recorded architectures are strictly increasing,
on success they are exactly the sorted key list, and for the architecture
set {"x86_64", "aarch64", "riscv64"} the records are emitted in the order
aarch64, riscv64, x86_64. -/
theorem generateIndexSBOM_sorted (o : Options) (ienv : IndexEnv) (idx : String)
    (imgs imgs' : List (Architecture × ImageT))
    (hnd : (imgs.map Prod.fst).Nodup) (hperm : imgs.Perm imgs') :
    GenerateIndexSBOM o ienv idx imgs' = GenerateIndexSBOM o ienv idx imgs ∧
    List.Pairwise (· < ·)
      ((GenerateIndexSBOM o ienv idx imgs).images.map ArchImageInfo.Arch) ∧
    (∀ sb, o.wantSBOM = true →
      (GenerateIndexSBOM o ienv idx imgs).res = .ok sb →
      (GenerateIndexSBOM o ienv idx imgs).images.map ArchImageInfo.Arch =
        List.insertionSort archLe (imgs.map Prod.fst)) ∧
    (∀ sb, o.wantSBOM = true →
      (GenerateIndexSBOM o ienv idx imgs).res = .ok sb →
      (imgs.map Prod.fst).Perm ["x86_64", "aarch64", "riscv64"] →
      (GenerateIndexSBOM o ienv idx imgs).images.map ArchImageInfo.Arch =
        ["aarch64", "riscv64", "x86_64"]) := by
  have hsorted : ∀ sb, o.wantSBOM = true →
      (GenerateIndexSBOM o ienv idx imgs).res = .ok sb →
      (GenerateIndexSBOM o ienv idx imgs).images.map ArchImageInfo.Arch =
        List.insertionSort archLe (imgs.map Prod.fst) := by
    intro sb hw hres
    obtain ⟨infos, hcol, himg⟩ :=
      generateIndexSBOM_ok_images o ienv idx imgs sb hw hres
    rw [himg]
    exact collectArchInfos_ok_map_arch ienv imgs (outputDir o)
      (sbomExt (o.SBOMFormats.headD "")) _ infos hcol
  refine ⟨?_, ?_, hsorted, ?_⟩
  · have hk : List.insertionSort archLe (imgs'.map Prod.fst) =
        List.insertionSort archLe (imgs.map Prod.fst) :=
      insertionSort_perm_eq (hperm.map Prod.fst).symm
    have hcoll := collectArchInfos_congr ienv
      (fun a => (lookup_perm hperm hnd a).symm) (outputDir o)
      (sbomExt (o.SBOMFormats.headD ""))
    simp only [GenerateIndexSBOM, hk, hcoll]
  · rcases generateIndexSBOM_images_shape o ienv idx imgs with
      hempty | ⟨infos, hcol, himg⟩
    · rw [hempty]
      simp
    · rw [himg, collectArchInfos_ok_map_arch ienv imgs (outputDir o)
        (sbomExt (o.SBOMFormats.headD "")) _ infos hcol]
      exact pairwise_lt_insertionSort hnd
  · intro sb hw hres hperm3
    rw [hsorted sb hw hres, insertionSort_perm_eq hperm3]
    decide

/-- The three architectures of the spec's ordering scenario, keyed in an
arbitrary (unsorted) order. -/
def fixImgs : List (Architecture × ImageT) :=
  [("x86_64", fixImg), ("aarch64", fixImg), ("riscv64", fixImg)]

/-- A permutation of `fixImgs` (a different map iteration order). -/
def fixImgsPerm : List (Architecture × ImageT) :=
  [("riscv64", fixImg), ("x86_64", fixImg), ("aarch64", fixImg)]

/-- Witness for C2: at the concrete three-architecture map the result is
iteration-order independent and the records come out as aarch64, riscv64,
x86_64. -/
theorem generateIndexSBOM_sorted_witness :
    GenerateIndexSBOM fixOpts fixIEnv "sha256:idx" fixImgsPerm =
      GenerateIndexSBOM fixOpts fixIEnv "sha256:idx" fixImgs ∧
    (GenerateIndexSBOM fixOpts fixIEnv "sha256:idx" fixImgs).images.map
        ArchImageInfo.Arch = ["aarch64", "riscv64", "x86_64"] := by
  have h := generateIndexSBOM_sorted fixOpts fixIEnv "sha256:idx" fixImgs
    fixImgsPerm (by decide) (by decide)
  refine ⟨h.1, h.2.2.2
    [{ Path := "/tmp/apko/sbom-index.spdx.json", Format := "spdx", Arch := "",
       Digest := "sha256:idx" }] rfl rfl (by decide)⟩

/-- C6: the per-architecture SBOM file whose digest `GenerateIndexSBOM`
recomputes is `sbom-<arch>.<ext>` in the SBOM output directory, with the
extension derived from the primary requested format by spdx → spdx.json,
cyclonedx → cdx, idb → idb; the digest recorded for each architecture is
the hash of that on-disk file's contents (the `fileSHA256` oracle), not a
value from elsewhere. -/
theorem generateIndexSBOM_file_digest (o : Options) (ienv : IndexEnv)
    (idx : String) (imgs : List (Architecture × ImageT)) :
    (∀ r ∈ (GenerateIndexSBOM o ienv idx imgs).images,
      ienv.fileSHA256 (filepathJoin (outputDir o)
        ("sbom-" ++ r.Arch ++ "." ++ sbomExt (o.SBOMFormats.headD ""))) =
          .ok r.SBOMDigest) ∧
    sbomExt "spdx" = "spdx.json" ∧ sbomExt "cyclonedx" = "cdx" ∧
    sbomExt "idb" = "idb" := by
  refine ⟨?_, rfl, rfl, rfl⟩
  intro r hr
  rcases generateIndexSBOM_images_shape o ienv idx imgs with
    hempty | ⟨infos, hcol, himg⟩
  · rw [hempty] at hr
    simp at hr
  · rw [himg] at hr
    exact collectArchInfos_ok_sbomDigest ienv imgs (outputDir o)
      (sbomExt (o.SBOMFormats.headD "")) _ infos hcol r hr

/-- Witness for C6: the aarch64 record of the concrete run carries the
on-disk hash of `/tmp/apko/sbom-aarch64.spdx.json`. -/
theorem generateIndexSBOM_file_digest_witness :
    fixIEnv.fileSHA256 (filepathJoin (outputDir fixOpts)
        ("sbom-" ++ "aarch64" ++ "." ++ sbomExt (fixOpts.SBOMFormats.headD ""))) =
      .ok "sha256-of:/tmp/apko/sbom-aarch64.spdx.json" :=
  (generateIndexSBOM_file_digest fixOpts fixIEnv "sha256:idx" fixImgs).1
    { Digest := "sha256:img", Arch := "aarch64",
      SBOMDigest := "sha256-of:/tmp/apko/sbom-aarch64.spdx.json" }
    (by decide)

end Apko
